import Mathlib

/-!
Verification development for the ABAC/ReBAC proof-of-concept authorization
gateway, consisting of two FastAPI services: an OPA-backed attribute gateway
(`src/opa/python/main.py`) and an OpenFGA-backed relationship-graph gateway
(`src/openfga/python/main.py`).  The definitions below are a shallow
embedding of the Python source: Python dicts become association lists or
functions, outbound HTTP calls become explicit outcome parameters
(`exception raised` / `status code returned`), and FastAPI `HTTPException`
control flow becomes `Except` values carrying the HTTP status.
-/

namespace AbacRebac

/-! ## Shared string helpers (Python string semantics) -/

/-- Lower-casing of a single ASCII character, as Python `str.lower` acts on
the ASCII range used by this code base. -/
def lowerChar (c : Char) : Char :=
  if 'A' ≤ c ∧ c ≤ 'Z' then Char.ofNat (c.toNat + 32) else c

/-- Python `str.lower` restricted to the ASCII strings this service handles. -/
def strLower (s : String) : String :=
  List.asString (s.toList.map lowerChar)

/-- Python whitespace test used by `str.strip`. -/
def isPySpace (c : Char) : Bool :=
  c = ' ' || c = '\t' || c = '\n' || c = '\r' || c = Char.ofNat 11 || c = Char.ofNat 12

/-- Python `str.strip`: remove leading and trailing whitespace. -/
def pystrip (s : String) : String :=
  List.asString (((s.toList.dropWhile isPySpace).reverse.dropWhile isPySpace).reverse)

/-- Lookup in a Python dict modelled as an association list
(`d.get(k)` / `k in d`). -/
def dictGet {β : Type} (k : String) : List (String × β) → Option β
  | [] => none
  | (k', v) :: d => if k' = k then some v else dictGet k d

/-- Python dict update `d[k] = v` (and the override in `{**d, k: v}`):
replace the value in place if the key exists, otherwise append. -/
def dictSet {β : Type} (k : String) (v : β) : List (String × β) → List (String × β)
  | [] => [(k, v)]
  | (k', v') :: d => if k' = k then (k, v) :: d else (k', v') :: dictSet k v d

/-- Python truthiness of an optional string (`None` and `""` are falsy),
as in `x or y` and `if not x`. -/
def truthyOptStr : Option String → Bool
  | none => false
  | some s => s ≠ ""

/-- Python `a or b` on an optional string `a` with string default `b`. -/
def pyOrS (a : Option String) (b : String) : String :=
  match a with
  | some s => if s = "" then b else s
  | none => b

/-! ## Token extraction (`authorization.replace("Bearer ", "")`)

Both services' `auth_middleware` compute
`token = authorization.replace("Bearer ", "")`.  Python `str.replace`
removes every non-overlapping occurrence, scanning left to right. -/

/-- The pattern removed from the authorization header: the characters of
the literal `"Bearer "`. -/
def bearerPat : List Char := ['B', 'e', 'a', 'r', 'e', 'r', ' ']

/-- Model of `s.replace("Bearer ", "")` on the character list of `s`: at each
position, if the next seven characters spell `"Bearer "` they are skipped,
otherwise one character is emitted and scanning continues. -/
def stripBearerL : List Char → List Char
  | [] => []
  | c1 :: c2 :: c3 :: c4 :: c5 :: c6 :: c7 :: rest =>
    if c1 = 'B' ∧ c2 = 'e' ∧ c3 = 'a' ∧ c4 = 'r' ∧ c5 = 'e' ∧ c6 = 'r' ∧ c7 = ' ' then
      stripBearerL rest
    else
      c1 :: stripBearerL (c2 :: c3 :: c4 :: c5 :: c6 :: c7 :: rest)
  | c :: cs => c :: stripBearerL cs

/-- Model of `authorization.replace("Bearer ", "")` at the string level. -/
def extract_token (s : String) : String :=
  List.asString (stripBearerL s.toList)

/-- The token the middleware submits to the introspection authority for a
given `authorization` header: `none` when the header is missing or empty
(the middleware raises 401 before any outbound call), otherwise the header
with every `"Bearer "` occurrence removed. -/
def submitted_token : Option String → Option String
  | none => none
  | some h => if h = "" then none else some (extract_token h)

theorem stripBearerL_pat_append (rest : List Char) :
    stripBearerL (bearerPat ++ rest) = stripBearerL rest := rfl

theorem stripBearerL_cons_ne (c : Char) (cs : List Char)
    (h : ¬ bearerPat <+: (c :: cs)) :
    stripBearerL (c :: cs) = c :: stripBearerL cs := by
  rcases cs with _ | ⟨c2, _ | ⟨c3, _ | ⟨c4, _ | ⟨c5, _ | ⟨c6, _ | ⟨c7, rest⟩⟩⟩⟩⟩⟩
  · rfl
  · rfl
  · rfl
  · rfl
  · rfl
  · rfl
  · simp only [stripBearerL]
    rw [if_neg]
    rintro ⟨h1, h2, h3, h4, h5, h6, h7⟩
    subst h1; subst h2; subst h3; subst h4; subst h5; subst h6; subst h7
    exact h ⟨rest, rfl⟩

/-- An infix occurrence in the tail is an infix occurrence in the whole list. -/
theorem infix_of_infix_tail {pat cs : List Char} (c : Char)
    (h : pat <:+: cs) : pat <:+: (c :: cs) := by
  obtain ⟨s, t, hst⟩ := h
  exact ⟨c :: s, t, by simp [hst]⟩

/-- A list containing no occurrence of `"Bearer "` is left unchanged. -/
theorem stripBearerL_no_occ : ∀ l : List Char, ¬ bearerPat <:+: l → stripBearerL l = l := by
  intro l
  induction l with
  | nil => intro _; rfl
  | cons c cs ih =>
    intro h
    have hpre : ¬ bearerPat <+: (c :: cs) := by
      intro hp
      obtain ⟨t, ht⟩ := hp
      exact h ⟨[], t, by simpa using ht⟩
    rw [stripBearerL_cons_ne c cs hpre, ih (fun hi => h (infix_of_infix_tail c hi))]

/-- If `"Bearer "` does not occur in the nonempty list `c :: a`, then it is
also not a prefix of `c :: a ++ "Bearer " ++ b`: the pattern has no
nontrivial self-overlap, so a prefix occurrence would have to lie entirely
inside `c :: a`. -/
theorem bearer_not_prefix_boundary (c : Char) (a b : List Char)
    (h : ¬ bearerPat <:+: (c :: a)) :
    ¬ bearerPat <+: (c :: (a ++ (bearerPat ++ b))) := by
  rintro ⟨t, ht⟩
  simp only [bearerPat, List.cons_append, List.nil_append] at ht
  injection ht with hc ht
  rcases a with _ | ⟨c2, a⟩
  · simp only [List.nil_append] at ht
    injection ht with hx _; exact absurd hx (by decide)
  simp only [List.cons_append] at ht
  injection ht with h2 ht
  rcases a with _ | ⟨c3, a⟩
  · simp only [List.nil_append] at ht
    injection ht with hx _; exact absurd hx (by decide)
  simp only [List.cons_append] at ht
  injection ht with h3 ht
  rcases a with _ | ⟨c4, a⟩
  · simp only [List.nil_append] at ht
    injection ht with hx _; exact absurd hx (by decide)
  simp only [List.cons_append] at ht
  injection ht with h4 ht
  rcases a with _ | ⟨c5, a⟩
  · simp only [List.nil_append] at ht
    injection ht with hx _; exact absurd hx (by decide)
  simp only [List.cons_append] at ht
  injection ht with h5 ht
  rcases a with _ | ⟨c6, a⟩
  · simp only [List.nil_append] at ht
    injection ht with hx _; exact absurd hx (by decide)
  simp only [List.cons_append] at ht
  injection ht with h6 ht
  rcases a with _ | ⟨c7, a⟩
  · simp only [List.nil_append] at ht
    injection ht with hx _; exact absurd hx (by decide)
  simp only [List.cons_append] at ht
  injection ht with h7 ht
  apply h
  refine ⟨[], a, ?_⟩
  simp [bearerPat, ← hc, ← h2, ← h3, ← h4, ← h5, ← h6, ← h7]

/-- The scan removes an occurrence of `"Bearer "` wherever it sits: if the
part before the occurrence contains no occurrence itself, the scan copies
it verbatim, removes the pattern, and continues on the remainder. -/
theorem stripBearerL_append_pat (a b : List Char) (h : ¬ bearerPat <:+: a) :
    stripBearerL (a ++ (bearerPat ++ b)) = a ++ stripBearerL b := by
  induction a with
  | nil => simpa using stripBearerL_pat_append b
  | cons c a ih =>
    have hpre := bearer_not_prefix_boundary c a b h
    rw [List.cons_append, stripBearerL_cons_ne _ _ hpre,
      ih (fun hi => h (infix_of_infix_tail c hi)), List.cons_append]

/-! ## Attribute backend (`src/opa/python/main.py`)

Outbound HTTP calls are modelled by explicit outcome values: `PutOutcome.exc`
is a raised exception (connection error, JSON error, …), `PutOutcome.status n`
is a completed call with HTTP status `n`. -/

/-- Outcome of one outbound HTTP call made with `httpx`. -/
inductive PutOutcome : Type
  | exc : PutOutcome
  | status : Nat → PutOutcome
deriving DecidableEq

/-- The `ENDPOINT_ACTIONS` dict of the OPA service:
GET→read, POST→create, PUT→update, PATCH→update, DELETE→delete. -/
def ENDPOINT_ACTIONS : List (String × String) :=
  [("GET", "read"), ("POST", "create"), ("PUT", "update"),
   ("PATCH", "update"), ("DELETE", "delete")]

/-- The decision-input document `policy_input` that `check_authorization`
posts to OPA (the `timestamp` value is taken as a parameter since it is
read from the wall clock). -/
structure PolicyInput : Type where
  user : String
  resource : String
  action : String
  method : String
  timestamp : String
  context : List (String × String)
deriving DecidableEq

/-- Construction of `policy_input` inside `check_authorization`:
`action = ENDPOINT_ACTIONS.get(method, method.lower())`, the caller's
`context` dict is nested under the `context` key. -/
def build_policy_input (user resource method ts : String)
    (context : List (String × String)) : PolicyInput :=
  { user := user
    resource := resource
    action := (dictGet method ENDPOINT_ACTIONS).getD (strLower method)
    method := method
    timestamp := ts
    context := context }

/-- Outcome of the OPA decision call: a raised exception, or a response
with a status code and an optional boolean `result` field. -/
inductive OpaResp : Type
  | exc : OpaResp
  | resp : Nat → Option Bool → OpaResp
deriving DecidableEq

/-- Model of `check_authorization` of the OPA service: it submits
`{input: policy_input}` to `/v1/data/authz/allow` and interprets the
response; the pair is (document submitted, boolean returned).
Any exception returns `false`; a non-200 status returns `false`;
otherwise the verdict is `result.get("result", False)`. -/
def check_authorization (user resource method ts : String)
    (context : List (String × String)) (o : OpaResp) : PolicyInput × Bool :=
  (build_policy_input user resource method ts context,
    match o with
    | OpaResp.exc => false
    | OpaResp.resp st r => if st ≠ 200 then false else r.getD false)

/-- The `context` dict built by the `/resources/{id}/grant` endpoint of the
OPA service before it checks authorization. -/
def grant_context (body_user body_relation : Option String) :
    List (String × String) :=
  [("resource_type", "document"),
   ("grant_type", "permission_delegation"),
   ("target_user", body_user.getD "unknown"),
   ("permission_level", body_relation.getD "read"),
   ("department", "engineering")]

/-- The decision-input document submitted to OPA by the grant endpoint:
`check_authorization(user_id, resource_id, "POST",
{**context, "action": "grant_permission"})`. -/
def grant_check_input (user_id resource_id : String)
    (body_user body_relation : Option String) (ts : String) : PolicyInput :=
  build_policy_input user_id resource_id "POST" ts
    (dictSet "action" "grant_permission" (grant_context body_user body_relation))

/-! ### The `permissions` section and `grant_access` (OPA service)

The stored `permissions` document is a nested dict
`user -> resource -> permission -> bool`, modelled as nested association
lists. -/

/-- Innermost level: permission name → boolean. -/
abbrev PermMap : Type := List (String × Bool)

/-- Middle level: resource id → permission map. -/
abbrev ResMap : Type := List (String × PermMap)

/-- The full `permissions` section: user → resource map. -/
abbrev Perms : Type := List (String × ResMap)

instance : DecidableEq PermMap := inferInstance

instance : DecidableEq ResMap := inferInstance

instance : DecidableEq Perms := inferInstance

/-- Triple lookup in a permissions section. -/
def lookup3 (P : Perms) (u r p : String) : Option Bool :=
  (dictGet u P).bind fun um => (dictGet r um).bind fun rm => dictGet p rm

/-- The insertion step of `grant_access`: create the `target_user` and
`resource_id` levels if absent, then set
`current_permissions[target_user][resource_id][permission] = True`. -/
def grantInsert (target_user resource_id permission : String)
    (cur : Perms) : Perms :=
  let um := (dictGet target_user cur).getD []
  let rm := (dictGet resource_id um).getD []
  dictSet target_user (dictSet resource_id (dictSet permission true rm) um) cur

/-- The `current_permissions` value `grant_access` works with, given the
section `stored` in OPA and the status of the GET: the body's `result`
field when the status is 200, the empty dict otherwise; a raised
exception propagates (and becomes a 500 in `grant_access`). -/
def grant_current (stored : Perms) (getO : PutOutcome) : Except Nat Perms :=
  match getO with
  | PutOutcome.exc => Except.error 500
  | PutOutcome.status n => Except.ok (if n = 200 then stored else [])

/-- The full permissions document `grant_access` writes back to
`/v1/data/permissions`. -/
def grant_written (stored : Perms) (getO : PutOutcome)
    (target_user resource_id permission : String) : Except Nat Perms :=
  (grant_current stored getO).map (grantInsert target_user resource_id permission)

/-- HTTP status 200 or 204, the statuses the OPA service accepts for a
data/policy PUT (`update_response.status_code not in [200, 204]`). -/
def successStatus (n : Nat) : Bool := n == 200 || n == 204

/-- Result of the mutation part of the OPA `grant_access` endpoint (after
the authorization check): 500 when the read raises, when the write raises,
or when the write returns a status outside {200, 204}; otherwise success. -/
def grant_access_run (stored : Perms) (getO putO : PutOutcome)
    (target_user resource_id permission : String) : Except Nat Perms :=
  match grant_written stored getO target_user resource_id permission with
  | Except.error e => Except.error e
  | Except.ok written =>
    match putO with
    | PutOutcome.exc => Except.error 500
    | PutOutcome.status n =>
      if successStatus n then Except.ok written else Except.error 500

/-! ### `update_permissions` (`POST /admin/permissions`, OPA service) -/

/-- The five section names the admin endpoint recognizes. -/
inductive SectionName : Type
  | permissions | group_permissions | users | organizations | resources
deriving DecidableEq

/-- The JSON key of each section. -/
def sectionKey : SectionName → String
  | SectionName.permissions => "permissions"
  | SectionName.group_permissions => "group_permissions"
  | SectionName.users => "users"
  | SectionName.organizations => "organizations"
  | SectionName.resources => "resources"

/-- The order in which `update_permissions` examines the sections. -/
def sectionOrder : List SectionName :=
  [SectionName.permissions, SectionName.group_permissions, SectionName.users,
   SectionName.organizations, SectionName.resources]

/-- One pass of `update_permissions` over a list of sections.  For each
section whose key is present in the request body it PUTs the document to
OPA: a raised exception aborts the whole endpoint with a 500 (so the
`updated_sections` accumulator is discarded); otherwise the section key is
appended to `updated_sections` regardless of the response status (the code
never inspects it).  The first component is the resulting OPA data store
(a PUT takes effect exactly when OPA answers with a success status). -/
def up_go {α : Type} (body : List (String × α)) (pdp : SectionName → PutOutcome) :
    List SectionName → (SectionName → α) → List String →
    ((SectionName → α) × Except Nat (List String))
  | [], st, acc => (st, Except.ok acc)
  | s :: rest, st, acc =>
    match dictGet (sectionKey s) body with
    | none => up_go body pdp rest st acc
    | some d =>
      match pdp s with
      | PutOutcome.exc => (st, Except.error 500)
      | PutOutcome.status n =>
        up_go body pdp rest
          (fun x => if x = s then (if successStatus n then d else st x) else st x)
          (acc ++ [sectionKey s])

/-- The `update_permissions` endpoint: body, per-section PUT outcomes, and
the OPA data store before the call; returns the store after the call and
either a 500 or the `updated_sections` list of the success response. -/
def update_permissions_run {α : Type} (body : List (String × α))
    (pdp : SectionName → PutOutcome) (st : SectionName → α) :
    ((SectionName → α) × Except Nat (List String)) :=
  up_go body pdp sectionOrder st []

/-! ### `update_policy` (`POST /admin/policy`, OPA service) -/

/-- The body of the `try` block of `update_policy`: 400 when the `policy`
field is missing or empty, an error when the PUT raises or returns a
status outside {200, 204}, otherwise the policy name of the success
message. -/
def update_policy_inner (name policy : Option String) (putO : PutOutcome) :
    Except Nat String :=
  let n := name.getD "authz"
  if ¬ truthyOptStr policy then Except.error 400
  else
    match putO with
    | PutOutcome.exc => Except.error 500
    | PutOutcome.status st =>
      if successStatus st then Except.ok n else Except.error 500

/-- The `update_policy` endpoint as the caller sees it: the `except
Exception` clause catches every exception raised in the `try` block —
including the `HTTPException(400)` for a missing policy, since FastAPI's
`HTTPException` subclasses `Exception` — and re-raises it as a 500. -/
def update_policy_run (name policy : Option String) (putO : PutOutcome) :
    Except Nat String :=
  match update_policy_inner name policy putO with
  | Except.ok x => Except.ok x
  | Except.error _ => Except.error 500

/-! ### Token verification (`auth_middleware`, both services) -/

/-- The introspection record returned by Hydra, with the fields the
middleware reads; `none` models an absent field. -/
structure TokenInfo : Type where
  active : Option Bool
  preferred_username : Option String
  client_id : Option String
  scope : Option String
deriving DecidableEq

/-- The identity dict the middleware returns on success. -/
structure AuthUser : Type where
  user_id : String
  client_id : String
  token : String
  scope : String
deriving DecidableEq

/-- Outcome of the introspection call. -/
inductive IntroOutcome : Type
  | exc : IntroOutcome
  | resp : Nat → TokenInfo → IntroOutcome
deriving DecidableEq

/-- Model of `auth_middleware` of the OPA service: 401 when the header is missing
or empty, the introspection call raises, the status is not 200, or
`active` is not truthy; on success
`user_id = token_info.get("client_id", "unknown")`. -/
def opa_auth_middleware (authorization : Option String) (io : IntroOutcome) :
    Except Nat AuthUser :=
  match authorization with
  | none => Except.error 401
  | some h =>
    if h = "" then Except.error 401
    else
      match io with
      | IntroOutcome.exc => Except.error 401
      | IntroOutcome.resp st info =>
        if st ≠ 200 then Except.error 401
        else if ¬ (info.active.getD false) then Except.error 401
        else Except.ok
          { user_id := info.client_id.getD "unknown"
            client_id := info.client_id.getD "unknown"
            token := extract_token h
            scope := info.scope.getD "" }

/-- Model of `auth_middleware` of the OpenFGA service: identical except that
`user_id = token_info.get("preferred_username") or
token_info.get("client_id", "unknown")`. -/
def fga_auth_middleware (authorization : Option String) (io : IntroOutcome) :
    Except Nat AuthUser :=
  match authorization with
  | none => Except.error 401
  | some h =>
    if h = "" then Except.error 401
    else
      match io with
      | IntroOutcome.exc => Except.error 401
      | IntroOutcome.resp st info =>
        if st ≠ 200 then Except.error 401
        else if ¬ (info.active.getD false) then Except.error 401
        else Except.ok
          { user_id := pyOrS info.preferred_username (info.client_id.getD "unknown")
            client_id := info.client_id.getD "unknown"
            token := extract_token h
            scope := info.scope.getD "" }

/-- Definition following the spec's words for claim C5: `subject_id` is
`preferred_username` when present, else `client_id` when present, else the
literal `"unknown"`. -/
def spec_subject_id (t : TokenInfo) : String :=
  match t.preferred_username with
  | some s => s
  | none =>
    match t.client_id with
    | some c => c
    | none => "unknown"

/-! ## Relationship-graph backend (`src/openfga/python/main.py`) -/

/-- Model of `get_store_id`: read and strip the store-id file; `none` when the file
does not exist (the file's presence and contents are the parameter). -/
def get_store_id (file : Option String) : Option String :=
  file.map pystrip

/-- The cached OpenFGA client configuration (`ClientConfiguration`). -/
structure FgaClientConf : Type where
  api_url : String
  store_id : String
deriving DecidableEq

/-- Model of `get_fga_client`: given the module-level `OPENFGA_STORE_ID` read at
startup, the current contents of the store-id file, and the cached
`_fga_client`, return the client used and the new cache.  When a client is
cached it is returned unconditionally; only on first use is
`get_store_id() or OPENFGA_STORE_ID` consulted, raising a 500 when that is
falsy. -/
def get_fga_client (api_url : String) (store_id_0 : Option String)
    (file : Option String) (cached : Option FgaClientConf) :
    Except Nat (FgaClientConf × Option FgaClientConf) :=
  match cached with
  | some c => Except.ok (c, some c)
  | none =>
    let current := match get_store_id file with
      | some s => if s = "" then store_id_0 else some s
      | none => store_id_0
    match current with
    | none => Except.error 500
    | some s =>
      if s = "" then Except.error 500
      else Except.ok (⟨api_url, s⟩, some ⟨api_url, s⟩)

/-- One relationship tuple (user, relation, object). -/
abbrev FgaTuple : Type := String × String × String

/-- Modelled from the spec: the graph PDP's write call, which is performed
by the external OpenFGA server, not by code under `src/` — §6: "write call
(list of tuples) → success or 'already exists' error".  Writing a tuple
already in the store raises an error whose message reports that the tuple
already exists; otherwise the tuple is added. -/
def fgaWrite (st : List FgaTuple) (t : FgaTuple) :
    Except String (List FgaTuple) :=
  if t ∈ st then Except.error "tuple already exists" else Except.ok (t :: st)

/-- Modelled from the spec: the graph PDP's check call — §6: "check call
(subject, relation, object) → {allowed: bool}"; the backend's
group/hierarchy resolution is abstracted to tuple membership, which is all
the theorems below depend on (they only compare outcomes on equal stores). -/
def fgaCheck (st : List FgaTuple) (t : FgaTuple) : Bool :=
  decide (t ∈ st)

/-- Model of `check_authorization` of the OpenFGA service: check
`user:{user_id}` / relation / `resource:{resource_id}` on the store. -/
def check_authorization_fga (st : List FgaTuple)
    (user_id relation resource_id : String) : Bool :=
  fgaCheck st ("user:" ++ user_id, relation, "resource:" ++ resource_id)

/-- Status field of the grant endpoint's success response. -/
inductive GrantStatus : Type
  | newly_granted | already_exists
deriving DecidableEq

/-- Substring test `"already exists" in str(write_error).lower()`. -/
def mentions_already_exists (e : String) : Bool :=
  decide ((List.asString ("already exists".toList)).toList <:+: (strLower e).toList)

/-- The write part of the OpenFGA `grant_access` endpoint (after the owner
check): write the tuple
`(target_user, relation, "resource:" + resource_id)`; a write error whose
message mentions "already exists" is reported as success with status
`already_exists` and leaves the store unchanged; any other error becomes a
500. -/
def grant_graph (st : List FgaTuple) (target_user relation resource_id : String) :
    Except Nat (GrantStatus × List FgaTuple) :=
  match fgaWrite st (target_user, relation, "resource:" ++ resource_id) with
  | Except.ok st' => Except.ok (GrantStatus.newly_granted, st')
  | Except.error e =>
    if mentions_already_exists e then Except.ok (GrantStatus.already_exists, st)
    else Except.error 500

/-! ## Support lemmas -/

instance {ε α : Type} [DecidableEq ε] [DecidableEq α] : DecidableEq (Except ε α) := fun x y =>
  match x, y with
  | Except.ok v, Except.ok w =>
    if h : v = w then isTrue (by rw [h])
    else isFalse (by intro hh; cases hh; exact h rfl)
  | Except.ok _, Except.error _ => isFalse (by intro hh; cases hh)
  | Except.error _, Except.ok _ => isFalse (by intro hh; cases hh)
  | Except.error v, Except.error w =>
    if h : v = w then isTrue (by rw [h])
    else isFalse (by intro hh; cases hh; exact h rfl)

/-- Success test for an `Except` value. -/
def isOkE {ε α : Type} : Except ε α → Bool
  | Except.ok _ => true
  | Except.error _ => false

theorem dictGet_dictSet {β : Type} (k k' : String) (v : β) :
    ∀ d : List (String × β),
      dictGet k (dictSet k' v d) = if k' = k then some v else dictGet k d := by
  intro d
  induction d with
  | nil => simp [dictGet, dictSet]
  | cons kv d ih =>
    obtain ⟨k2, v2⟩ := kv
    by_cases h2 : k2 = k'
    · subst h2
      by_cases hk : k2 = k <;> simp [dictGet, dictSet, hk]
    · by_cases hk2 : k2 = k <;> by_cases hk' : k' = k <;>
        simp_all [dictGet, dictSet]

/-! ## Claim theorems -/

/-- C1: for every request to the attribute-backend decision client, if the
attribute PDP responds with a non-200 status, or responds 200 with a body
lacking the `result` field, or the call raises any exception, then
`check_authorization` returns `false` — never `true` — in all of these
cases. -/
theorem c1_opa_decide_fail_closed (user resource method ts : String)
    (context : List (String × String)) :
    (check_authorization user resource method ts context OpaResp.exc).2 = false
    ∧ (∀ (st : Nat) (r : Option Bool), st ≠ 200 →
        (check_authorization user resource method ts context (OpaResp.resp st r)).2 = false)
    ∧ (∀ st : Nat,
        (check_authorization user resource method ts context (OpaResp.resp st none)).2 = false) := by
  refine ⟨rfl, ?_, ?_⟩
  · intro st r hst
    simp [check_authorization, hst]
  · intro st
    by_cases h : st = 200 <;> simp [check_authorization, h]

/-- Witness for C1: a concrete PDP answer with status 503 (and even an
explicit `true` verdict in the body) is denied. -/
theorem c1_opa_decide_fail_closed_witness :
    (503 : Nat) ≠ 200
    ∧ (check_authorization "alice" "doc1" "GET" "t" []
        (OpaResp.resp 503 (some true))).2 = false :=
  ⟨by decide,
   (c1_opa_decide_fail_closed "alice" "doc1" "GET" "t" []).2.1 503 (some true) (by decide)⟩

/-- C2 counterexample: on the grant path of the OPA service the document
submitted to the PDP has top-level `action` equal to `"create"` (the
Action-Mapper value for POST), not the elevated value
`"grant_permission"`, contradicting the claim at the concrete input
(user "admin", resource "doc1", body user "bob", body relation "read"). -/
theorem c2_grant_action_counterexample :
    (grant_check_input "admin" "doc1" (some "bob") (some "read") "t").action = "create"
    ∧ (grant_check_input "admin" "doc1" (some "bob") (some "read") "t").action
        ≠ "grant_permission" := by
  constructor
  · rfl
  · decide

/-- C2 amended: for every grant-type operation in the attribute backend,
the decision-input document keeps the Action-Mapper value `"create"` as its
top-level `action` field; the fixed elevated value `"grant_permission"` is
instead placed inside the nested `context` mapping under the key
`"action"`. -/
theorem c2_grant_action_in_context (user_id resource_id : String)
    (body_user body_relation : Option String) (ts : String) :
    (grant_check_input user_id resource_id body_user body_relation ts).action = "create"
    ∧ dictGet "action" (grant_check_input user_id resource_id body_user body_relation ts).context
        = some "grant_permission" := by
  exact ⟨rfl, rfl⟩

/-- C3: the claim is right and the code is wrong.  The `update_policy`
endpoint does raise `HTTPException(400, "Policy content is required")` for
an empty or absent `policy` field — that is the inner result — but the
surrounding `except Exception` clause catches that `HTTPException` (a
subclass of `Exception`) and re-raises it as a 500, so the caller observes
HTTP 500, not 400. -/
theorem c3_update_policy_empty_policy_500 :
    update_policy_inner (some "authz") none (PutOutcome.status 200) = Except.error 400
    ∧ update_policy_run (some "authz") none (PutOutcome.status 200) = Except.error 500
    ∧ update_policy_run (some "authz") (some "") (PutOutcome.status 200) = Except.error 500 :=
  ⟨rfl, rfl, rfl⟩

/-- C4 counterexample: after the client has been constructed against store
identifier "storeA", a later call made while the store-identifier file
reads "storeB" still returns the cached handle bound to "storeA" — the
handle is not rebuilt when the authoritative source changes. -/
theorem c4_stale_store_counterexample :
    get_fga_client "http://localhost:8080" (some "storeA") (some "storeB")
        (some ⟨"http://localhost:8080", "storeA"⟩)
      = Except.ok (⟨"http://localhost:8080", "storeA"⟩,
          some ⟨"http://localhost:8080", "storeA"⟩)
    ∧ get_store_id (some "storeB") = some "storeB"
    ∧ ("storeA" : String) ≠ "storeB" := by
  refine ⟨rfl, by decide, by decide⟩

/-- C4 amended: the store identifier is re-read from the store-identifier
file when the handle is first constructed, but on every subsequent call
the cached handle is returned unconditionally — regardless of the current
file contents — so a changed identifier is never detected and no rebuild
occurs. -/
theorem c4_store_handle_cached :
    (∀ (url : String) (s0 file : Option String) (c : FgaClientConf),
      get_fga_client url s0 file (some c) = Except.ok (c, some c))
    ∧ (∀ (url : String) (s0 file : Option String) (s : String),
      get_store_id file = some s → s ≠ "" →
      get_fga_client url s0 file none = Except.ok (⟨url, s⟩, some ⟨url, s⟩)) := by
  constructor
  · intro url s0 file c
    rfl
  · intro url s0 file s hs hne
    simp [get_fga_client, hs, hne]

/-- Witness for C4 amended: the cached branch at a concrete stale handle,
and the construction branch reading a concrete file. -/
theorem c4_store_handle_cached_witness :
    get_fga_client "u" none (some "x") (some ⟨"u", "y"⟩)
      = Except.ok (⟨"u", "y"⟩, some ⟨"u", "y"⟩)
    ∧ get_fga_client "u" none (some "z") none
      = Except.ok (⟨"u", "z"⟩, some ⟨"u", "z"⟩) :=
  ⟨c4_store_handle_cached.1 "u" none (some "x") ⟨"u", "y"⟩,
   c4_store_handle_cached.2 "u" none (some "z") "z" (by decide) (by decide)⟩

/-- C5 counterexample: when introspection returns both
`preferred_username = "alice"` and `client_id = "svc"`, the attribute
(OPA) backend derives `subject_id = "svc"`, not the principal name
"alice" required by the claim — only the graph backend prefers
`preferred_username`. -/
theorem c5_subject_id_counterexample :
    (opa_auth_middleware (some "Bearer tok")
        (IntroOutcome.resp 200 ⟨some true, some "alice", some "svc", none⟩)).map
        AuthUser.user_id = Except.ok "svc"
    ∧ spec_subject_id ⟨some true, some "alice", some "svc", none⟩ = "alice"
    ∧ ("svc" : String) ≠ "alice" := by
  refine ⟨rfl, rfl, by decide⟩

/-- C5 amended: in the graph backend `subject_id` is `preferred_username`
when present and non-empty, else `client_id` when present, else
`"unknown"`; the attribute backend never consults `preferred_username` and
uses `client_id` when present, else `"unknown"`; in both backends a
verification that otherwise succeeds never fails solely because the
principal name is absent. -/
theorem c5_subject_id_derivation :
    (∀ (h : String) (st : Nat) (info : TokenInfo),
      opa_auth_middleware (some h) (IntroOutcome.resp st info)
        = opa_auth_middleware (some h)
            (IntroOutcome.resp st { info with preferred_username := none }))
    ∧ (∀ (h : String) (st : Nat) (info : TokenInfo) (u : AuthUser),
      opa_auth_middleware (some h) (IntroOutcome.resp st info) = Except.ok u →
      u.user_id = info.client_id.getD "unknown")
    ∧ (∀ (h : String) (st : Nat) (info : TokenInfo) (u : AuthUser) (s : String),
      info.preferred_username = some s → s ≠ "" →
      fga_auth_middleware (some h) (IntroOutcome.resp st info) = Except.ok u →
      u.user_id = s)
    ∧ (∀ (h : String) (st : Nat) (info : TokenInfo) (u : AuthUser),
      (info.preferred_username = none ∨ info.preferred_username = some "") →
      fga_auth_middleware (some h) (IntroOutcome.resp st info) = Except.ok u →
      u.user_id = info.client_id.getD "unknown")
    ∧ (∀ (h : String) (st : Nat) (info : TokenInfo),
      isOkE (fga_auth_middleware (some h) (IntroOutcome.resp st info))
        = isOkE (fga_auth_middleware (some h)
            (IntroOutcome.resp st { info with preferred_username := none }))) := by
  refine ⟨?_, ?_, ?_, ?_, ?_⟩
  · intro h st info
    rfl
  · intro h st info u hu
    simp only [opa_auth_middleware] at hu
    split_ifs at hu <;> try exact Except.noConfusion hu
    injection hu with hu
    rw [← hu]
  · intro h st info u s hs hne hu
    simp only [fga_auth_middleware] at hu
    split_ifs at hu <;> try exact Except.noConfusion hu
    injection hu with hu
    rw [← hu]
    simp [pyOrS, hs, hne]
  · intro h st info u hpu hu
    simp only [fga_auth_middleware] at hu
    split_ifs at hu <;> try exact Except.noConfusion hu
    injection hu with hu
    rw [← hu]
    rcases hpu with hpu | hpu <;> simp [pyOrS, hpu]
  · intro h st info
    simp only [fga_auth_middleware]
    split_ifs <;> rfl

/-- Witness for C5 amended: concrete introspection records exercising the
preferred-username, empty-name and absent-name branches. -/
theorem c5_subject_id_derivation_witness :
    (opa_auth_middleware (some "Bearer t")
        (IntroOutcome.resp 200 ⟨some true, some "alice", some "svc", none⟩)
      = opa_auth_middleware (some "Bearer t")
        (IntroOutcome.resp 200 ⟨some true, none, some "svc", none⟩))
    ∧ (⟨"svc", "svc", "t", ""⟩ : AuthUser).user_id = (some "svc").getD "unknown"
    ∧ (⟨"alice", "svc", "t", ""⟩ : AuthUser).user_id = "alice"
    ∧ (⟨"svc", "svc", "t", ""⟩ : AuthUser).user_id = (some "svc").getD "unknown" := by
  refine ⟨c5_subject_id_derivation.1 "Bearer t" 200 ⟨some true, some "alice", some "svc", none⟩,
    c5_subject_id_derivation.2.1 "Bearer t" 200 ⟨some true, none, some "svc", none⟩
      ⟨"svc", "svc", "t", ""⟩ (by decide),
    c5_subject_id_derivation.2.2.1 "Bearer t" 200 ⟨some true, some "alice", some "svc", none⟩
      ⟨"alice", "svc", "t", ""⟩ "alice" rfl (by decide) (by decide),
    c5_subject_id_derivation.2.2.2.1 "Bearer t" 200 ⟨some true, none, some "svc", none⟩
      ⟨"svc", "svc", "t", ""⟩ (Or.inl rfl) (by decide)⟩

/-! ### Lemmas about the `update_permissions` pass -/

theorem up_go_ok_iff {α : Type} (body : List (String × α)) (pdp : SectionName → PutOutcome) :
    ∀ (L : List SectionName) (st : SectionName → α) (acc : List String),
      isOkE (up_go body pdp L st acc).2 = true
        ↔ ∀ s ∈ L, (dictGet (sectionKey s) body).isSome → pdp s ≠ PutOutcome.exc := by
  intro L
  induction L with
  | nil => intro st acc; simp [up_go, isOkE]
  | cons s rest ih =>
    intro st acc
    cases hb : dictGet (sectionKey s) body with
    | none => simp [up_go, hb, ih]
    | some d =>
      cases hp : pdp s with
      | exc => simp [up_go, hb, hp, isOkE]
      | status n => simp [up_go, hb, hp, ih]

theorem up_go_ok_val {α : Type} (body : List (String × α)) (pdp : SectionName → PutOutcome) :
    ∀ (L : List SectionName) (st : SectionName → α) (acc l : List String),
      (up_go body pdp L st acc).2 = Except.ok l →
      l = acc ++ (L.filter (fun s => (dictGet (sectionKey s) body).isSome)).map sectionKey := by
  intro L
  induction L with
  | nil =>
    intro st acc l hl
    simp [up_go] at hl
    simp [hl.symm]
  | cons s rest ih =>
    intro st acc l hl
    cases hb : dictGet (sectionKey s) body with
    | none =>
      rw [up_go, hb] at hl
      simpa [hb] using ih _ _ _ hl
    | some d =>
      cases hp : pdp s with
      | exc =>
        rw [up_go, hb, hp] at hl
        exact Except.noConfusion hl
      | status n =>
        rw [up_go, hb, hp] at hl
        have := ih _ _ _ hl
        simp [hb, this]

theorem up_go_frame {α : Type} (body : List (String × α)) (pdp : SectionName → PutOutcome) :
    ∀ (L : List SectionName) (st : SectionName → α) (acc : List String) (s : SectionName),
      dictGet (sectionKey s) body = none →
      (up_go body pdp L st acc).1 s = st s := by
  intro L
  induction L with
  | nil => intro st acc s _; rfl
  | cons s' rest ih =>
    intro st acc s hs
    cases hb : dictGet (sectionKey s') body with
    | none =>
      rw [up_go, hb]
      exact ih _ _ _ hs
    | some d =>
      cases hp : pdp s' with
      | exc => rw [up_go, hb, hp]
      | status n =>
        rw [up_go, hb, hp]
        rw [ih _ _ _ hs]
        have hne : s ≠ s' := by
          intro he
          rw [he, hb] at hs
          exact Option.noConfusion hs
        simp [hne]

theorem up_go_congr {α : Type} (pdp : SectionName → PutOutcome)
    (b₁ b₂ : List (String × α)) :
    ∀ (L : List SectionName) (st : SectionName → α) (acc : List String),
      (∀ s ∈ L, dictGet (sectionKey s) b₁ = dictGet (sectionKey s) b₂) →
      up_go b₁ pdp L st acc = up_go b₂ pdp L st acc := by
  intro L
  induction L with
  | nil => intro st acc _; rfl
  | cons s rest ih =>
    intro st acc hL
    have hs := hL s (List.mem_cons_self s rest)
    have hrest : ∀ s' ∈ rest, dictGet (sectionKey s') b₁ = dictGet (sectionKey s') b₂ :=
      fun s' hs' => hL s' (List.mem_cons_of_mem s hs')
    rw [up_go, up_go, ← hs]
    cases hb : dictGet (sectionKey s) b₁ with
    | none => exact ih _ _ hrest
    | some d =>
      cases pdp s with
      | exc => rfl
      | status n => exact ih _ _ hrest

/-- C8: the admin update is section-scoped — a section whose key is not in
the request body is never written (in particular, updating `permissions`
leaves `organizations` and `users` untouched), and a key outside the five
enumerated section names is ignored without error (the call behaves
exactly as without it). -/
theorem c8_section_isolation :
    (∀ (α : Type) (body : List (String × α)) (pdp : SectionName → PutOutcome)
        (st : SectionName → α) (s : SectionName),
      dictGet (sectionKey s) body = none →
      (update_permissions_run body pdp st).1 s = st s)
    ∧ (∀ (α : Type) (k : String) (d : α) (body : List (String × α))
        (pdp : SectionName → PutOutcome) (st : SectionName → α),
      ¬ k ∈ sectionOrder.map sectionKey →
      update_permissions_run ((k, d) :: body) pdp st
        = update_permissions_run body pdp st) := by
  constructor
  · intro α body pdp st s hs
    exact up_go_frame body pdp sectionOrder st [] s hs
  · intro α k d body pdp st hk
    apply up_go_congr
    intro s hs
    have hne : k ≠ sectionKey s := by
      intro he
      exact hk (he ▸ List.mem_map_of_mem sectionKey hs)
    simp [dictGet, hne]

/-- Witness for C8: a body updating only `permissions` leaves the stored
`organizations` document unchanged, and an unknown key "foo" has no
effect. -/
theorem c8_section_isolation_witness :
    (update_permissions_run [("permissions", 5)] (fun _ => PutOutcome.status 204)
        (fun _ => (0 : Nat))).1 SectionName.organizations = (fun _ => (0 : Nat)) SectionName.organizations
    ∧ update_permissions_run [("foo", 1)] (fun _ => PutOutcome.status 204) (fun _ => (0 : Nat))
      = update_permissions_run [] (fun _ => PutOutcome.status 204) (fun _ => (0 : Nat)) :=
  ⟨c8_section_isolation.1 Nat [("permissions", 5)] (fun _ => PutOutcome.status 204)
      (fun _ => 0) SectionName.organizations (by decide),
   c8_section_isolation.2 Nat "foo" 1 [] (fun _ => PutOutcome.status 204)
      (fun _ => 0) (by decide)⟩

/-- C6 counterexample: a body updating `permissions` whose PUT the PDP
answers with status 500 — a failed write — still yields a success
response listing `permissions` as updated, contradicting the claim that
such a call fails with 500 and that no failed section is listed. -/
theorem c6_update_permissions_counterexample :
    (update_permissions_run [("permissions", 1)] (fun _ => PutOutcome.status 500)
        (fun _ => (0 : Nat))).2 = Except.ok ["permissions"] := rfl

/-- C6 amended: a mutation fails with 500 whenever an attempted PDP call
raises an exception, and then reports no section as updated; `grant_access`
and `update_policy` additionally fail with 500 when the PDP write returns a
status outside {200, 204} (and `grant_access` requires its read not to
raise); but `update_permissions` never inspects the PUT response statuses —
it succeeds exactly when no attempted PUT raises, and then lists every
section present in the body, including sections whose PUT returned a
non-success status. -/
theorem c6_mutation_failure_amended :
    (∀ (α : Type) (body : List (String × α)) (pdp : SectionName → PutOutcome)
        (st : SectionName → α),
      isOkE (update_permissions_run body pdp st).2 = true
        ↔ ∀ s ∈ sectionOrder, (dictGet (sectionKey s) body).isSome → pdp s ≠ PutOutcome.exc)
    ∧ (∀ (α : Type) (body : List (String × α)) (pdp : SectionName → PutOutcome)
        (st : SectionName → α) (l : List String),
      (update_permissions_run body pdp st).2 = Except.ok l →
      l = (sectionOrder.filter (fun s => (dictGet (sectionKey s) body).isSome)).map sectionKey)
    ∧ (∀ (stored : Perms) (getO putO : PutOutcome) (tu rid perm : String) (w : Perms),
      grant_access_run stored getO putO tu rid perm = Except.ok w →
      getO ≠ PutOutcome.exc
        ∧ ∃ n, putO = PutOutcome.status n ∧ successStatus n = true)
    ∧ (∀ (name policy : Option String) (putO : PutOutcome) (x : String),
      update_policy_run name policy putO = Except.ok x →
      truthyOptStr policy = true
        ∧ ∃ n, putO = PutOutcome.status n ∧ successStatus n = true) := by
  refine ⟨?_, ?_, ?_, ?_⟩
  · intro α body pdp st
    exact up_go_ok_iff body pdp sectionOrder st []
  · intro α body pdp st l hl
    simpa using up_go_ok_val body pdp sectionOrder st [] l hl
  · intro stored getO putO tu rid perm w hw
    cases getO with
    | exc => exact Except.noConfusion hw
    | status m =>
      cases putO with
      | exc => exact Except.noConfusion hw
      | status n =>
        refine ⟨fun he => PutOutcome.noConfusion he, n, rfl, ?_⟩
        by_cases hn : successStatus n = true
        · exact hn
        · rw [grant_access_run] at hw
          simp only [grant_written, grant_current, Except.map] at hw
          rw [if_neg hn] at hw
          exact Except.noConfusion hw
  · intro name policy putO x hx
    simp only [update_policy_run, update_policy_inner] at hx
    by_cases hp : truthyOptStr policy = true
    · refine ⟨hp, ?_⟩
      cases putO with
      | exc => simp [hp] at hx
      | status n =>
        by_cases hn : successStatus n = true
        · exact ⟨n, rfl, hn⟩
        · simp [hp, hn] at hx
    · simp [hp] at hx

/-- Witness for C6 amended: concrete instances of all four conjuncts — an
exception-free `update_permissions` body succeeds listing `permissions`,
a successful grant and a successful policy push. -/
theorem c6_mutation_failure_amended_witness :
    (isOkE (update_permissions_run [("permissions", 1)] (fun _ => PutOutcome.status 204)
        (fun _ => (0 : Nat))).2 = true
      ↔ ∀ s ∈ sectionOrder,
          (dictGet (sectionKey s) [("permissions", (1 : Nat))]).isSome
            → (fun _ => PutOutcome.status 204) s ≠ PutOutcome.exc)
    ∧ (["permissions"]
        = (sectionOrder.filter
            (fun s => (dictGet (sectionKey s) [("permissions", (1 : Nat))]).isSome)).map sectionKey)
    ∧ (PutOutcome.status 200 ≠ PutOutcome.exc
        ∧ ∃ n, (PutOutcome.status 204 : PutOutcome) = PutOutcome.status n ∧ successStatus n = true)
    ∧ (truthyOptStr (some "package authz") = true
        ∧ ∃ n, (PutOutcome.status 200 : PutOutcome) = PutOutcome.status n ∧ successStatus n = true) :=
  ⟨c6_mutation_failure_amended.1 Nat [("permissions", 1)] (fun _ => PutOutcome.status 204)
      (fun _ => 0),
   c6_mutation_failure_amended.2.1 Nat [("permissions", 1)] (fun _ => PutOutcome.status 204)
      (fun _ => 0) ["permissions"] (by decide),
   c6_mutation_failure_amended.2.2.1 [] (PutOutcome.status 200) (PutOutcome.status 204)
      "bob" "doc1" "read" [("bob", [("doc1", [("read", true)])])] (by decide),
   c6_mutation_failure_amended.2.2.2 (some "authz") (some "package authz")
      (PutOutcome.status 200) "authz" (by decide)⟩

/-- C7: granting an identical (subject, relation, object) tuple a second
time returns success with status `already_exists`, and the graph backend's
decision outcome on the store returned by the second call equals the
outcome on the store of the first call (the repetition leaves the store
unchanged). -/
theorem c7_grant_graph_idempotent :
    ∀ (st : List FgaTuple) (tu rel rid : String) (s1 : GrantStatus)
      (st1 : List FgaTuple),
      grant_graph st tu rel rid = Except.ok (s1, st1) →
      ∃ st2, grant_graph st1 tu rel rid = Except.ok (GrantStatus.already_exists, st2)
        ∧ ∀ (uid rel' rid' : String),
            check_authorization_fga st2 uid rel' rid'
              = check_authorization_fga st1 uid rel' rid' := by
  intro st tu rel rid s1 st1 h
  have hm : mentions_already_exists "tuple already exists" = true := by decide
  have hmem : (tu, rel, "resource:" ++ rid) ∈ st1 := by
    by_cases ht : (tu, rel, "resource:" ++ rid) ∈ st
    · simp [grant_graph, fgaWrite, ht, hm] at h
      exact h.2 ▸ ht
    · simp [grant_graph, fgaWrite, ht] at h
      exact h.2 ▸ List.mem_cons_self _ _
  refine ⟨st1, ?_, fun uid rel' rid' => rfl⟩
  simp [grant_graph, fgaWrite, hmem, hm]

/-- Witness for C7: regranting carol's `can_view` on `doc2` after a first
successful grant from the empty store. -/
theorem c7_grant_graph_idempotent_witness :
    ∃ st2, grant_graph [("carol", "can_view", "resource:doc2")] "carol" "can_view" "doc2"
        = Except.ok (GrantStatus.already_exists, st2)
      ∧ ∀ (uid rel' rid' : String),
          check_authorization_fga st2 uid rel' rid'
            = check_authorization_fga [("carol", "can_view", "resource:doc2")] uid rel' rid' :=
  c7_grant_graph_idempotent [] "carol" "can_view" "doc2" GrantStatus.newly_granted
    [("carol", "can_view", "resource:doc2")] (by decide)

/-- Decomposition of a successful triple lookup. -/
theorem lookup3_some {P : Perms} {u r p : String} {b : Bool}
    (h : lookup3 P u r p = some b) :
    ∃ um rm, dictGet u P = some um ∧ dictGet r um = some rm ∧ dictGet p rm = some b := by
  rw [lookup3] at h
  rw [Option.bind_eq_some] at h
  obtain ⟨um, hum, h⟩ := h
  rw [Option.bind_eq_some] at h
  obtain ⟨rm, hrm, h⟩ := h
  exact ⟨um, rm, hum, hrm, h⟩

/-- C9 counterexample: when the read of the current `permissions` section
returns a non-200 status (here 500), `grant_access` proceeds with an empty
current section and the document it writes back loses every prior entry:
alice's recorded `read` on `doc1` is absent from the written section. -/
theorem c9_grant_read_failure_counterexample :
    grant_written [("alice", [("doc1", [("read", true)])])] (PutOutcome.status 500)
        "bob" "doc1" "write"
      = Except.ok [("bob", [("doc1", [("write", true)])])]
    ∧ lookup3 [("alice", [("doc1", [("read", true)])])] "alice" "doc1" "read" = some true
    ∧ lookup3 [("bob", [("doc1", [("write", true)])])] "alice" "doc1" "read" = none := by
  refine ⟨by decide, by decide, by decide⟩

/-- C9 amended: provided the read of the current section returns status
200, `grant_access` performs the claimed read-modify-write — the written
section is the read section with `{target_user: {resource_id: {permission:
true}}}` merged in, every prior entry for any other user, any other
resource, or any other permission on the same (user, resource) is still
present, and the new permission is recorded; when the read returns a
non-success status the code instead substitutes an empty section (see the
counterexample). -/
theorem c9_grant_merge_preserves :
    (∀ (stored : Perms) (tu rid perm : String),
      grant_written stored (PutOutcome.status 200) tu rid perm
        = Except.ok (grantInsert tu rid perm stored))
    ∧ (∀ (stored : Perms) (tu rid perm u r p : String) (b : Bool),
      (u ≠ tu ∨ r ≠ rid ∨ p ≠ perm) →
      lookup3 stored u r p = some b →
      lookup3 (grantInsert tu rid perm stored) u r p = some b)
    ∧ (∀ (stored : Perms) (tu rid perm : String),
      lookup3 (grantInsert tu rid perm stored) tu rid perm = some true) := by
  refine ⟨?_, ?_, ?_⟩
  · intro stored tu rid perm
    rfl
  · intro stored tu rid perm u r p b hne hb
    obtain ⟨um, rm, hum, hrm, hpb⟩ := lookup3_some hb
    by_cases hu : u = tu
    · subst hu
      by_cases hr : r = rid
      · subst hr
        have hp : p ≠ perm := by tauto
        simp [lookup3, grantInsert, dictGet_dictSet, hum, hrm, Ne.symm hp, hpb]
      · simp [lookup3, grantInsert, dictGet_dictSet, hum, Ne.symm hr, hrm, hpb]
    · simp [lookup3, grantInsert, dictGet_dictSet, Ne.symm hu, hum, hrm, hpb]
  · intro stored tu rid perm
    simp [lookup3, grantInsert, dictGet_dictSet]

/-- Witness for C9 amended: granting bob `write` on `doc1` with a
successful read keeps alice's prior `read` on `doc1` and records the new
entry. -/
theorem c9_grant_merge_preserves_witness :
    grant_written [("alice", [("doc1", [("read", true)])])] (PutOutcome.status 200)
        "bob" "doc1" "write"
      = Except.ok (grantInsert "bob" "doc1" "write" [("alice", [("doc1", [("read", true)])])])
    ∧ lookup3 (grantInsert "bob" "doc1" "write" [("alice", [("doc1", [("read", true)])])])
        "alice" "doc1" "read" = some true
    ∧ lookup3 (grantInsert "bob" "doc1" "write" [("alice", [("doc1", [("read", true)])])])
        "bob" "doc1" "write" = some true :=
  ⟨c9_grant_merge_preserves.1 [("alice", [("doc1", [("read", true)])])] "bob" "doc1" "write",
   c9_grant_merge_preserves.2.1 [("alice", [("doc1", [("read", true)])])] "bob" "doc1" "write"
      "alice" "doc1" "read" true (Or.inl (by decide)) (by decide),
   c9_grant_merge_preserves.2.2 [("alice", [("doc1", [("read", true)])])] "bob" "doc1" "write"⟩

/-- C10: token extraction removes every occurrence of `"Bearer "` anywhere
inside the authorization header (each occurrence preceded by
occurrence-free text is excised and scanning continues), and a non-empty
header containing no `"Bearer "` at all is not rejected — it is forwarded
unchanged as the token to the introspection authority. -/
theorem c10_token_extraction :
    (∀ a b : List Char, ¬ bearerPat <:+: a →
      stripBearerL (a ++ (bearerPat ++ b)) = a ++ stripBearerL b)
    ∧ (∀ h : String, h ≠ "" → ¬ bearerPat <:+: h.toList →
      submitted_token (some h) = some h) := by
  constructor
  · exact stripBearerL_append_pat
  · intro h hne hno
    obtain ⟨data⟩ := h
    simp only [submitted_token, if_neg hne, extract_token]
    rw [stripBearerL_no_occ _ hno]
    rfl

/-- Witness for C10: a mid-string occurrence is removed, and the header
"abc" (no scheme prefix) is forwarded unchanged. -/
theorem c10_token_extraction_witness :
    stripBearerL (['x'] ++ (bearerPat ++ ['y'])) = ['x'] ++ stripBearerL ['y']
    ∧ submitted_token (some "abc") = some "abc" :=
  ⟨c10_token_extraction.1 ['x'] ['y'] (by decide),
   c10_token_extraction.2 "abc" (by decide) (by decide)⟩

end AbacRebac
